import Mathlib

/-!
Shallow embedding of the mac-agent repository: the allow-list command
executor, the three AI backend callers with their shared JSON degrade
path, and the per-request orchestrator.  External effects that the
repository merely invokes (process spawning, HTTP transport, the Go
standard-library JSON unmarshaller, wall-clock readings) are modelled as
explicit oracle parameters; everything the repository itself computes is
translated directly from the Go source.
-/

/-- CommandRequest mirrors the Go struct: command name, argument list and
a timeout in seconds (Go integer zero value when the field is absent). -/
structure CommandRequest where
  Command : String
  Args : List String
  Timeout : Int

/-- CommandResponse mirrors the Go struct returned by ExecuteCommand. -/
structure CommandResponse where
  Success : Bool
  Output : String
  Error : String
  ExitCode : Int
  Duration : String
  Timestamp : String

/-- Agent holds the fixed allow list (a Go map from name to bool whose
lookups default to false, modelled as list membership). -/
structure Agent where
  allowedCommands : List String

/-- NewAgent enumerates the permitted command names exactly as the Go
map literal does. -/
def NewAgent : Agent :=
  { allowedCommands :=
      ["ls", "pwd", "whoami", "date", "uptime",
       "ps", "top", "df", "du", "find",
       "grep", "cat", "head", "tail", "wc",
       "sort", "uniq", "echo", "mkdir", "rmdir",
       "cp", "mv", "rm", "chmod", "chown",
       "file", "stat", "which", "whereis",
       "system_profiler", "sw_vers", "defaults",
       "launchctl", "netstat", "lsof", "ifconfig",
       "ping", "nslookup", "dig", "curl", "wget"] }

/-- isCommandAllowed is the case-sensitive exact lookup in the fixed
allow list (a missing key yields false in Go). -/
def isCommandAllowed (a : Agent) (command : String) : Bool :=
  a.allowedCommands.contains command

/-- Outcome of running one spawned process to completion, as observed by
the Go code: the combined standard output and error text, the exit code
reported by ProcessState.ExitCode (which is -1 when the process never
started, with no panic on a nil ProcessState), and the error value that
CombinedOutput returned (none exactly when that error was nil; a missing
binary, a non-zero exit and a deadline expiry all arrive as some
message). -/
structure SpawnOutcome where
  Output : String
  ExitCode : Int
  ErrMsg : Option String

/-- External world of one ExecuteCommand call: the OS reaction to
spawning a given command with given arguments under a given deadline in
nanoseconds (a Go time.Duration value), plus the wall-clock strings
read for the Duration and Timestamp fields. -/
structure ExecEnv where
  spawn : String → List String → Int → SpawnOutcome
  elapsed : String
  stamp : String

/-- Wraparound of a mathematical integer into the signed 64-bit range
(two-complement), as Go int64 arithmetic, and hence time.Duration
multiplication, behaves. -/
def wrapInt64 (x : Int) : Int :=
  (x + 9223372036854775808) % 18446744073709551616 - 9223372036854775808

/-- ExecuteCommand, translated line by line from the Go source: reject
(without consulting the OS) when the name is not allowed, otherwise
compute the effective deadline as a time.Duration in nanoseconds: 30
seconds by default, replaced when the request value is positive by
time.Duration(req.Timeout) multiplied by time.Second, an int64 product
that wraps around for large second counts.  Then spawn with the argument
list (the Go code distinguishes the empty-argument call cosmetically)
and package the outcome; the error value is carried as data in the
Error field. -/
def ExecuteCommand (a : Agent) (env : ExecEnv) (req : CommandRequest) : CommandResponse :=
  if !(isCommandAllowed a req.Command) then
    { Success := false
      Output := ""
      Error := "Command \x27" ++ req.Command ++ "\x27 is not allowed for security reasons"
      ExitCode := -1
      Duration := env.elapsed
      Timestamp := env.stamp }
  else
    let timeout : Int :=
      if req.Timeout > 0 then wrapInt64 (req.Timeout * 1000000000)
      else 30 * 1000000000
    let o : SpawnOutcome :=
      if req.Args.length > 0 then env.spawn req.Command req.Args timeout
      else env.spawn req.Command [] timeout
    { Success := o.ErrMsg.isNone
      Output := o.Output
      Error := o.ErrMsg.getD ""
      ExitCode := o.ExitCode
      Duration := env.elapsed
      Timestamp := env.stamp }

/-- FreeAIResponse mirrors the Go struct: the typed command plan decoded
from (or degraded from) the raw backend text. -/
structure FreeAIResponse where
  Thoughts : String
  Commands : List CommandRequest
  Explanation : String
  Confidence : Float
  Results : List CommandResponse
  Error : String

/-- FreeAIAgent mirrors the Go struct: the embedded Agent plus the
backend configuration strings. -/
structure FreeAIAgent where
  agent : Agent
  serviceType : String
  baseURL : String
  apiKey : String
  model : String

/-- NewFreeAIAgent constructs the agent from its configuration. -/
def NewFreeAIAgent (serviceType baseURL apiKey model : String) : FreeAIAgent :=
  { agent := NewAgent
    serviceType := serviceType
    baseURL := baseURL
    apiKey := apiKey
    model := model }

/-- NewOllamaAgent: the local-daemon variant. -/
def NewOllamaAgent (model : String) : FreeAIAgent :=
  NewFreeAIAgent "ollama" "http://localhost:11434" "" model

/-- NewHuggingFaceAgent: the cloud-inference variant. -/
def NewHuggingFaceAgent (apiKey model : String) : FreeAIAgent :=
  NewFreeAIAgent "huggingface" "https://api-inference.huggingface.co" apiKey model

/-- NewLocalAgent: the generic-HTTP variant. -/
def NewLocalAgent (baseURL model : String) : FreeAIAgent :=
  NewFreeAIAgent "local" baseURL "" model

/-- SystemPrompt, the fixed system and safety preamble from the Go
source. -/
def SystemPrompt : String :=
  "You are a helpful AI assistant that can execute commands on macOS systems. Your role is to:\n\n1. Understand user requests and translate them into appropriate system commands\n2. Only suggest safe, whitelisted commands\n3. Provide clear explanations of what you\x27re doing\n4. Express confidence in your decisions\n\nAvailable commands: ls, pwd, whoami, date, uptime, ps, top, df, du, find, grep, cat, head, tail, wc, sort, uniq, echo, mkdir, rmdir, cp, mv, rm, chmod, chown, file, stat, which, whereis, system_profiler, sw_vers, defaults, launchctl, netstat, lsof, ifconfig, ping, nslookup, dig, curl, wget\n\nSafety rules:\n- Never suggest dangerous commands like \x27sudo\x27, \x27rm -rf /\x27, \x27format\x27, or \x27dd\x27\n- Always use safe alternatives\n- Explain what each command does\n- Be specific about arguments and options\n\nRespond in valid JSON format with thoughts, commands array, explanation, and confidence level."

/-- Host facts consumed by the prompt context line; in the source they
come from GetSystemInfo, whose sub-probes are external processes. -/
structure SystemInfo where
  os : String
  arch : String
  macosVersion : String

/-- The context line formatted at the top of ProcessUserRequest. -/
def contextLine (si : SystemInfo) : String :=
  "Current system: " ++ si.os ++ " " ++ si.arch ++ ", macOS " ++ si.macosVersion

/-- buildPrompt reproduces the Sprintf template of ProcessUserRequest:
preamble, context, user request and the expected JSON shape. -/
def buildPrompt (context userMessage : String) : String :=
  SystemPrompt ++ "\n\nContext: " ++ context ++ "\n\nUser request: " ++ userMessage ++ "\n\nPlease respond in valid JSON format with the following structure:\n\x7b\n  \"thoughts\": \"Your reasoning about what the user wants\",\n  \"commands\": [\n    \x7b\n      \"command\": \"command_name\",\n      \"args\": [\"arg1\", \"arg2\"],\n      \"timeout\": 30\n    \x7d\n  ],\n  \"explanation\": \"Explain what you\x27re going to do and why\",\n  \"confidence\": 0.95\n\x7d"

/-- One HTTP exchange as the Go code observes it: a status code (which,
notably, the source never reads) and the outcome of reading the body. -/
structure HttpResp where
  StatusCode : Int
  BodyRead : Except String String

/-- The anonymous envelope struct decoded in callOllama. -/
structure OllamaResp where
  Response : String
  Error : String

/-- One element of the array envelope decoded in callHuggingFace. -/
structure HFItem where
  GeneratedText : String

/-- The anonymous envelope struct decoded in callLocalAPI. -/
structure LocalResp where
  Response : String
  Error : String

/-- External world of one backend call.  post models the HTTP round trip
(http.Post or client.Do) as a function of the prompt driving the request
body and of the client timeout in seconds that the Go code configures
(none when the default client with no timeout is used, as http.Post
does).  The unmarshal fields model the standard-library JSON decoding of
the body into each envelope shape, and unmarshalPlan models decoding the
raw generated text into FreeAIResponse (none when that decoding errors).
Marshalling of the fixed string-valued request maps cannot fail and is
absorbed into post. -/
structure BackendEnv where
  post : String → Option Int → Except String HttpResp
  unmarshalOllama : String → Except String OllamaResp
  unmarshalHF : String → Except String (List HFItem)
  unmarshalLocal : String → Except String LocalResp
  unmarshalPlan : String → Option FreeAIResponse

/-- The degrade path shared verbatim by all three backend callers: if
the raw generated text decoded, return the decoded plan unchanged;
otherwise build the fallback plan that preserves the raw text in
Explanation and marks the degradation. -/
def normalizeAIResponse (decoded : Option FreeAIResponse) (raw : String) : FreeAIResponse :=
  match decoded with
  | some aiResponse => aiResponse
  | none =>
    { Thoughts := "Failed to parse AI response as JSON"
      Commands := []
      Explanation := raw
      Confidence := 0.0
      Results := []
      Error := "Invalid JSON response from AI" }

/-- callOllama: http.Post (default client, hence no client timeout),
read the body, decode the envelope, surface a nonempty provider error
field, then normalize the inner generated text. -/
def callOllama (fa : FreeAIAgent) (prompt : String) (env : BackendEnv) : Except String FreeAIResponse :=
  match env.post prompt none with
  | Except.error e => Except.error ("Ollama API error: " ++ e)
  | Except.ok resp =>
    match resp.BodyRead with
    | Except.error e => Except.error e
    | Except.ok body =>
      match env.unmarshalOllama body with
      | Except.error e => Except.error e
      | Except.ok ollamaResp =>
        if ollamaResp.Error ≠ "" then
          Except.error ("Ollama error: " ++ ollamaResp.Error)
        else
          Except.ok (normalizeAIResponse (env.unmarshalPlan ollamaResp.Response) ollamaResp.Response)

/-- callHuggingFace: client.Do under a 30-second client timeout, read
the body, decode the array envelope, reject an empty candidate array,
then normalize the first generated text.  Building the request for the
fixed URL cannot fail and is absorbed into post. -/
def callHuggingFace (fa : FreeAIAgent) (prompt : String) (env : BackendEnv) : Except String FreeAIResponse :=
  match env.post prompt (some 30) with
  | Except.error e => Except.error ("Hugging Face API error: " ++ e)
  | Except.ok resp =>
    match resp.BodyRead with
    | Except.error e => Except.error e
    | Except.ok body =>
      match env.unmarshalHF body with
      | Except.error e => Except.error e
      | Except.ok hfResp =>
        match hfResp with
        | [] => Except.error "no response from Hugging Face"
        | first :: _ =>
          Except.ok (normalizeAIResponse (env.unmarshalPlan first.GeneratedText) first.GeneratedText)

/-- callLocalAPI: http.Post (default client, hence no client timeout),
read the body, decode the envelope, surface a nonempty provider error
field, then normalize the inner generated text. -/
def callLocalAPI (fa : FreeAIAgent) (prompt : String) (env : BackendEnv) : Except String FreeAIResponse :=
  match env.post prompt none with
  | Except.error e => Except.error ("Local API error: " ++ e)
  | Except.ok resp =>
    match resp.BodyRead with
    | Except.error e => Except.error e
    | Except.ok body =>
      match env.unmarshalLocal body with
      | Except.error e => Except.error e
      | Except.ok localResp =>
        if localResp.Error ≠ "" then
          Except.error ("Local API error: " ++ localResp.Error)
        else
          Except.ok (normalizeAIResponse (env.unmarshalPlan localResp.Response) localResp.Response)

/-- The service-type switch of ProcessUserRequest. -/
def dispatchBackend (fa : FreeAIAgent) (prompt : String) (env : BackendEnv) : Except String FreeAIResponse :=
  if fa.serviceType = "ollama" then callOllama fa prompt env
  else if fa.serviceType = "huggingface" then callHuggingFace fa prompt env
  else if fa.serviceType = "local" then callLocalAPI fa prompt env
  else Except.error ("unsupported service type: " ++ fa.serviceType)

/-- The execution stage of ProcessUserRequest: when the plan has
commands, execute each in order and collect one result per command
(the Go loop appends into a fresh slice, i.e. a map); otherwise the
response passes through untouched. -/
def runPlan (a : Agent) (env : ExecEnv) (response : FreeAIResponse) : FreeAIResponse :=
  if response.Commands.length > 0 then
    { response with Results := response.Commands.map (fun cmd => ExecuteCommand a env cmd) }
  else response

/-- ProcessUserRequest: build the prompt, dispatch on the backend, fail
fast on a backend error, otherwise run the plan. -/
def ProcessUserRequest (fa : FreeAIAgent) (si : SystemInfo) (env : BackendEnv)
    (execEnv : ExecEnv) (userMessage : String) : Except String FreeAIResponse :=
  match dispatchBackend fa (buildPrompt (contextLine si) userMessage) env with
  | Except.error e => Except.error e
  | Except.ok response => Except.ok (runPlan fa.agent execEnv response)

/-- A sample OS oracle for witnesses: echo succeeds with its canonical
output, everything else exits 1. -/
def sampleSpawn : String → List String → Int → SpawnOutcome :=
  fun command _ _ =>
    if command = "echo" then { Output := "hello\n", ExitCode := 0, ErrMsg := none }
    else { Output := "", ExitCode := 1, ErrMsg := some "exit status 1" }

/-- A sample execution environment for witnesses. -/
def sampleExecEnv : ExecEnv :=
  { spawn := sampleSpawn, elapsed := "1ms", stamp := "2026-01-01T00:00:00Z" }

/-- An execution environment whose OS oracle echoes the nanosecond
deadline it was handed, making the effective timeout observable in the
output field. -/
def probeExecEnv : ExecEnv :=
  { spawn := fun _ _ t => { Output := toString t, ExitCode := 0, ErrMsg := none }
    elapsed := ""
    stamp := "" }

/-- A sample parsed plan for witnesses: a failing command followed by a
succeeding one. -/
def samplePlan : FreeAIResponse :=
  { Thoughts := "list then print"
    Commands := [{ Command := "mv", Args := ["a", "b"], Timeout := 0 },
                 { Command := "echo", Args := ["hello"], Timeout := 0 }]
    Explanation := "demo"
    Confidence := 0.9
    Results := []
    Error := "" }

/-- A sample backend environment for witnesses in which every stage
succeeds and the plan decodes to samplePlan. -/
def sampleBackendEnv : BackendEnv :=
  { post := fun _ _ => Except.ok { StatusCode := 200, BodyRead := Except.ok "body" }
    unmarshalOllama := fun _ => Except.ok { Response := "plan", Error := "" }
    unmarshalHF := fun _ => Except.error "unused"
    unmarshalLocal := fun _ => Except.error "unused"
    unmarshalPlan := fun _ => some samplePlan }

/-- A backend environment whose transport always refuses connections. -/
def downBackendEnv : BackendEnv :=
  { post := fun _ _ => Except.error "connection refused"
    unmarshalOllama := fun _ => Except.error "unused"
    unmarshalHF := fun _ => Except.error "unused"
    unmarshalLocal := fun _ => Except.error "unused"
    unmarshalPlan := fun _ => none }

/-- The same backend environment with every HTTP status code rewritten
by g; used to state that the source never reads the status code. -/
def rewriteStatus (g : Int → Int) (env : BackendEnv) : BackendEnv :=
  { env with post := fun p t => Except.map (fun r => { StatusCode := g r.StatusCode, BodyRead := r.BodyRead }) (env.post p t) }

/-- The failure condition the amended C7 names for the local-daemon
variant, written from the words of the amended claim (to be compared
with callOllama): the transport fails, the body cannot be read, the body
does not decode as the envelope, or the provider reports a nonempty
error field. -/
def ollamaFailCondition (prompt : String) (env : BackendEnv) : Prop :=
  (∃ e, env.post prompt none = Except.error e)
  ∨ (∃ s e, env.post prompt none = Except.ok { StatusCode := s, BodyRead := Except.error e })
  ∨ (∃ s body e, env.post prompt none = Except.ok { StatusCode := s, BodyRead := Except.ok body }
      ∧ env.unmarshalOllama body = Except.error e)
  ∨ (∃ s body o, env.post prompt none = Except.ok { StatusCode := s, BodyRead := Except.ok body }
      ∧ env.unmarshalOllama body = Except.ok o ∧ o.Error ≠ "")

/-- The failure condition the amended C7 names for the cloud-inference
variant, written from the words of the amended claim (to be compared
with callHuggingFace): transport failure, unreadable body, envelope
decode failure, or an empty candidate array. -/
def hfFailCondition (prompt : String) (env : BackendEnv) : Prop :=
  (∃ e, env.post prompt (some 30) = Except.error e)
  ∨ (∃ s e, env.post prompt (some 30) = Except.ok { StatusCode := s, BodyRead := Except.error e })
  ∨ (∃ s body e, env.post prompt (some 30) = Except.ok { StatusCode := s, BodyRead := Except.ok body }
      ∧ env.unmarshalHF body = Except.error e)
  ∨ (∃ s body, env.post prompt (some 30) = Except.ok { StatusCode := s, BodyRead := Except.ok body }
      ∧ env.unmarshalHF body = Except.ok [])

/-- The failure condition the amended C7 names for the generic-HTTP
variant, written from the words of the amended claim (to be compared
with callLocalAPI): the transport fails, the body cannot be read, the
body does not decode as the envelope, or the provider reports a
nonempty error field. -/
def localFailCondition (prompt : String) (env : BackendEnv) : Prop :=
  (∃ e, env.post prompt none = Except.error e)
  ∨ (∃ s e, env.post prompt none = Except.ok { StatusCode := s, BodyRead := Except.error e })
  ∨ (∃ s body e, env.post prompt none = Except.ok { StatusCode := s, BodyRead := Except.ok body }
      ∧ env.unmarshalLocal body = Except.error e)
  ∨ (∃ s body l, env.post prompt none = Except.ok { StatusCode := s, BodyRead := Except.ok body }
      ∧ env.unmarshalLocal body = Except.ok l ∧ l.Error ≠ "")

/-- Sample host facts for witnesses. -/
def sampleSystemInfo : SystemInfo :=
  { os := "darwin", arch := "arm64", macosVersion := "14.5" }

/-- The report produced by running the sample pipeline end to end:
samplePlan with one result per command, the first failed, the second
succeeded. -/
def sampleExecutedReport : FreeAIResponse :=
  { Thoughts := "list then print"
    Commands := [{ Command := "mv", Args := ["a", "b"], Timeout := 0 },
                 { Command := "echo", Args := ["hello"], Timeout := 0 }]
    Explanation := "demo"
    Confidence := 0.9
    Results :=
      [{ Success := false, Output := "", Error := "exit status 1", ExitCode := 1,
         Duration := "1ms", Timestamp := "2026-01-01T00:00:00Z" },
       { Success := true, Output := "hello\n", Error := "", ExitCode := 0,
         Duration := "1ms", Timestamp := "2026-01-01T00:00:00Z" }]
    Error := "" }

theorem spawn_args_branch (env : ExecEnv) (c : String) (args : List String) (t : Int) :
    (if args.length > 0 then env.spawn c args t else env.spawn c [] t) = env.spawn c args t := by
  cases args <;> simp

/-- C1: a CommandRequest whose name is not in the allow list is rejected
before any process is spawned: the result has Success false, ExitCode -1
and an error message naming the command, and the outcome does not depend
on the spawn oracle at all (no process is consulted). -/
theorem C1_reject_disallowed (env : ExecEnv) (req : CommandRequest)
    (hnot : isCommandAllowed NewAgent req.Command = false) :
    ExecuteCommand NewAgent env req
      = { Success := false
          Output := ""
          Error := "Command \x27" ++ req.Command ++ "\x27 is not allowed for security reasons"
          ExitCode := -1
          Duration := env.elapsed
          Timestamp := env.stamp }
    ∧ ∀ sp, ExecuteCommand NewAgent { env with spawn := sp } req = ExecuteCommand NewAgent env req := by
  constructor
  · simp [ExecuteCommand, hnot]
  · intro sp
    simp [ExecuteCommand, hnot]

/-- C1 witness: the disallowed command sudo, with arguments and a
timeout, is rejected with exit code -1 and a message naming it. -/
theorem C1_reject_disallowed_witness :
    ExecuteCommand NewAgent sampleExecEnv { Command := "sudo", Args := ["whoami"], Timeout := 5 }
      = { Success := false
          Output := ""
          Error := "Command \x27sudo\x27 is not allowed for security reasons"
          ExitCode := -1
          Duration := "1ms"
          Timestamp := "2026-01-01T00:00:00Z" } :=
  (C1_reject_disallowed sampleExecEnv
    { Command := "sudo", Args := ["whoami"], Timeout := 5 } (by decide)).1

/-- C2: for an allowed command whose spawn fails (missing binary,
non-zero exit, deadline expiry), ExecuteCommand returns normally, with
the failure recorded as data: Success false, the spawn error message in
Error and the reported exit code in ExitCode.  The embedding is a total
function into CommandResponse, mirroring the Go signature, which has no
exception channel. -/
theorem C2_failure_as_data (env : ExecEnv) (req : CommandRequest)
    (out msg : String) (code : Int)
    (hallow : isCommandAllowed NewAgent req.Command = true)
    (hspawn : env.spawn req.Command req.Args
        (if req.Timeout > 0 then wrapInt64 (req.Timeout * 1000000000) else 30 * 1000000000)
        = { Output := out, ExitCode := code, ErrMsg := some msg }) :
    ExecuteCommand NewAgent env req
      = { Success := false, Output := out, Error := msg, ExitCode := code,
          Duration := env.elapsed, Timestamp := env.stamp } := by
  obtain ⟨c, args, tmo⟩ := req
  cases args with
  | nil =>
    simp at hspawn
    simp [ExecuteCommand, hallow, hspawn]
  | cons head tail =>
    simp at hspawn
    simp [ExecuteCommand, hallow, hspawn]

/-- C2 witness: the allowed command wget, whose execution exits nonzero
under the sample OS oracle, yields a data-carrying failure result. -/
theorem C2_failure_as_data_witness :
    ExecuteCommand NewAgent sampleExecEnv { Command := "wget", Args := [], Timeout := 0 }
      = { Success := false, Output := "", Error := "exit status 1", ExitCode := 1,
          Duration := "1ms", Timestamp := "2026-01-01T00:00:00Z" } :=
  C2_failure_as_data sampleExecEnv { Command := "wget", Args := [], Timeout := 0 }
    "" "exit status 1" 1 (by decide) rfl

/-- C3 counterexample: on undecodable input the degraded plan carries
the reasoning text Failed to parse AI response as JSON, not the claimed
Failed to parse AI response as structured output. -/
theorem C3_counterexample :
    (normalizeAIResponse none "not json at all").Thoughts
      ≠ "Failed to parse AI response as structured output" := by decide

/-- C3 (amended): interpretation of backend text never fails; for every
raw text whose decoding into the plan shape errors, the result is the
degraded plan with zero commands, confidence 0.0, reasoning equal to
Failed to parse AI response as JSON, and the raw text preserved verbatim
in Explanation. -/
theorem C3_degraded_plan (raw : String) :
    normalizeAIResponse none raw
      = { Thoughts := "Failed to parse AI response as JSON"
          Commands := []
          Explanation := raw
          Confidence := 0.0
          Results := []
          Error := "Invalid JSON response from AI" } := rfl

/-- C8 counterexample: for the allowed command ls with the positive
timeout 10000000000 seconds (decodable into the Go int field), the
deadline handed to the OS is the wrapped int64 nanosecond product
-8446744073709551616, an already-expired deadline, not 10000000000
seconds (which would be 10000000000000000000 nanoseconds): the int64
multiplication time.Duration(req.Timeout) by time.Second overflows. -/
theorem C8_counterexample :
    (0 : Int) < 10000000000
    ∧ (ExecuteCommand NewAgent probeExecEnv
        { Command := "ls", Args := [], Timeout := 10000000000 }).Output
      = toString ((-8446744073709551616 : Int))
    ∧ toString ((-8446744073709551616 : Int))
      ≠ toString ((10000000000 : Int) * 1000000000) :=
  ⟨by decide, by decide, by decide⟩

/-- C8 (amended): for an allowed command, the deadline handed to the OS
equals the requested timeout in seconds (as nanoseconds) whenever the
request value is positive and at most 9223372036, the largest second
count whose int64 nanosecond product does not overflow, and exactly 30
seconds when the request value is absent (zero) or non-positive;
observed through an OS oracle that echoes the nanosecond deadline it
receives.  Beyond that bound the int64 product wraps and the deadline
is no longer the requested number of seconds. -/
theorem C8_effective_timeout (name : String) (args : List String) (k : Int)
    (hallow : isCommandAllowed NewAgent name = true) :
    (0 < k → k ≤ 9223372036 →
      (ExecuteCommand NewAgent probeExecEnv
        { Command := name, Args := args, Timeout := k }).Output = toString (k * 1000000000))
    ∧ (k ≤ 0 →
      (ExecuteCommand NewAgent probeExecEnv
        { Command := name, Args := args, Timeout := k }).Output
      = toString ((30 : Int) * 1000000000)) := by
  constructor
  · intro hk hbound
    have hwrap : wrapInt64 (k * 1000000000) = k * 1000000000 := by
      unfold wrapInt64
      omega
    simp [ExecuteCommand, hallow, probeExecEnv, spawn_args_branch, if_pos hk, hwrap]
  · intro hk
    have hnk : ¬ ((0 : Int) < k) := not_lt.mpr hk
    simp [ExecuteCommand, hallow, probeExecEnv, spawn_args_branch, if_neg hnk]

/-- C8 witness: with timeout 5 the deadline is 5 seconds in nanoseconds;
with the zero value it is 30 seconds. -/
theorem C8_effective_timeout_witness :
    (ExecuteCommand NewAgent probeExecEnv
        { Command := "ls", Args := [], Timeout := 5 }).Output
      = toString ((5 : Int) * 1000000000)
    ∧ (ExecuteCommand NewAgent probeExecEnv
        { Command := "ls", Args := [], Timeout := 0 }).Output
      = toString ((30 : Int) * 1000000000) :=
  ⟨(C8_effective_timeout "ls" [] 5 (by decide)).1 (by decide) (by decide),
   (C8_effective_timeout "ls" [] 0 (by decide)).2 (by decide)⟩

/-- C9: two parsed plans that agree on everything except Thoughts and
Confidence lead to the same executed command sequence and the same
results; the advisory metadata never gates execution. -/
theorem C9_advisory_noninterference (a : Agent) (env : ExecEnv) (r₁ r₂ : FreeAIResponse)
    (hc : r₁.Commands = r₂.Commands) (hx : r₁.Explanation = r₂.Explanation)
    (hr : r₁.Results = r₂.Results) (he : r₁.Error = r₂.Error) :
    (runPlan a env r₁).Results = (runPlan a env r₂).Results
    ∧ (runPlan a env r₁).Commands = (runPlan a env r₂).Commands := by
  unfold runPlan
  rw [hc]
  by_cases hlen : 0 < r₂.Commands.length
  · simp [hlen, hc, hr]
  · simp [hlen, hc, hr]

/-- C9 witness: changing only Thoughts and Confidence of the sample plan
changes neither the executed commands nor the results. -/
theorem C9_advisory_noninterference_witness :
    (runPlan NewAgent sampleExecEnv samplePlan).Results
      = (runPlan NewAgent sampleExecEnv
          { samplePlan with Thoughts := "different", Confidence := 0.1 }).Results
    ∧ (runPlan NewAgent sampleExecEnv samplePlan).Commands
      = (runPlan NewAgent sampleExecEnv
          { samplePlan with Thoughts := "different", Confidence := 0.1 }).Commands :=
  C9_advisory_noninterference NewAgent sampleExecEnv samplePlan
    { samplePlan with Thoughts := "different", Confidence := 0.1 } rfl rfl rfl rfl

/-- C10 counterexample: a raw body that decodes successfully can itself
carry the marker text in its error member (the Go unmarshaller fills the
field tagged error), so a successfully parsed plan need not leave the
marker field empty, and the marker does not distinguish degradation. -/
theorem C10_counterexample :
    (normalizeAIResponse
        (some { Thoughts := "", Commands := [], Explanation := "", Confidence := 0.0,
                Results := [], Error := "Invalid JSON response from AI" }) "raw").Error
      = "Invalid JSON response from AI"
    ∧ "Invalid JSON response from AI" ≠ "" := ⟨rfl, by decide⟩

/-- C10 (amended): when parsing degrades, the error marker is exactly
Invalid JSON response from AI; when parsing succeeds, the decoded plan
is returned verbatim, so the field equals whatever the decoded payload
carried in its error member (empty whenever the payload has none). -/
theorem C10_error_marker (raw : String) (r : FreeAIResponse) :
    (normalizeAIResponse none raw).Error = "Invalid JSON response from AI"
    ∧ normalizeAIResponse (some r) raw = r := ⟨rfl, rfl⟩

/-- C4: whenever the orchestrator attempts execution (the parsed plan
holds at least one command), it produces exactly one result per planned
command, index aligned: result i is the execution of command i, so the
failure of an earlier command can neither suppress nor displace a later
one. -/
theorem C4_results_aligned (fa : FreeAIAgent) (si : SystemInfo) (env : BackendEnv)
    (execEnv : ExecEnv) (user : String) (out : FreeAIResponse)
    (hok : ProcessUserRequest fa si env execEnv user = Except.ok out)
    (hexec : 0 < out.Commands.length) :
    out.Results.length = out.Commands.length
    ∧ ∀ i (hi : i < out.Commands.length) (hr : i < out.Results.length),
        out.Results[i] = ExecuteCommand fa.agent execEnv out.Commands[i] := by
  unfold ProcessUserRequest at hok
  cases hd : dispatchBackend fa (buildPrompt (contextLine si) user) env with
  | error e =>
    rw [hd] at hok
    simp at hok
  | ok response =>
    rw [hd] at hok
    simp only [Except.ok.injEq] at hok
    subst hok
    have hcomm : (runPlan fa.agent execEnv response).Commands = response.Commands := by
      unfold runPlan
      split <;> rfl
    rw [hcomm] at hexec
    have hrun : runPlan fa.agent execEnv response
        = { response with
            Results := response.Commands.map (fun cmd => ExecuteCommand fa.agent execEnv cmd) } := by
      unfold runPlan
      rw [if_pos hexec]
    rw [hrun]
    constructor
    · simp
    · intro i hi hr
      simp

/-- C4 witness: the sample pipeline run executes both planned commands,
the first failing and the second succeeding, with aligned results. -/
theorem C4_results_aligned_witness :
    sampleExecutedReport.Results.length = sampleExecutedReport.Commands.length
    ∧ ∀ i (hi : i < sampleExecutedReport.Commands.length)
        (hr : i < sampleExecutedReport.Results.length),
        sampleExecutedReport.Results[i]
          = ExecuteCommand NewAgent sampleExecEnv sampleExecutedReport.Commands[i] :=
  C4_results_aligned (NewOllamaAgent "llama3.2") sampleSystemInfo sampleBackendEnv
    sampleExecEnv "list files" sampleExecutedReport (by rfl) (by decide)

/-- C5: when the backend transport fails, every variant of the pipeline
short-circuits with the wrapped backend error; the conclusion holds for
every execution environment and every plan-decoding oracle, so no
command is executed and no plan parsing is attempted. -/
theorem C5_backend_error_short_circuits
    (m k url user : String) (si : SystemInfo) (env : BackendEnv)
    (execEnv : ExecEnv) (e : String)
    (hpost : ∀ p t, env.post p t = Except.error e) :
    ProcessUserRequest (NewOllamaAgent m) si env execEnv user
      = Except.error ("Ollama API error: " ++ e)
    ∧ ProcessUserRequest (NewHuggingFaceAgent k m) si env execEnv user
      = Except.error ("Hugging Face API error: " ++ e)
    ∧ ProcessUserRequest (NewLocalAgent url m) si env execEnv user
      = Except.error ("Local API error: " ++ e) := by
  refine ⟨?_, ?_, ?_⟩ <;>
    simp [ProcessUserRequest, dispatchBackend, NewOllamaAgent, NewHuggingFaceAgent,
      NewLocalAgent, NewFreeAIAgent, callOllama, callHuggingFace, callLocalAPI, hpost]

/-- C5 witness: with a refused connection, the Ollama pipeline returns
the wrapped transport error and nothing else happens. -/
theorem C5_backend_error_short_circuits_witness :
    ProcessUserRequest (NewOllamaAgent "llama3.2") sampleSystemInfo downBackendEnv
        sampleExecEnv "list files"
      = Except.error ("Ollama API error: " ++ "connection refused") :=
  (C5_backend_error_short_circuits "llama3.2" "key" "http://x" "list files"
    sampleSystemInfo downBackendEnv sampleExecEnv "connection refused"
    (fun _ _ => rfl)).1

/-- C6 counterexample: the local-daemon variant issues its HTTP request
with no client timeout at all (http.Post uses the default client): a
transport that fails precisely when handed no client timeout makes
callOllama fail, which would be impossible if the request were made
under a 30-second client timeout. -/
theorem C6_counterexample :
    callOllama (NewOllamaAgent "llama3.2") "p"
      { post := fun _ t =>
          match t with
          | none => Except.error "default client without timeout"
          | some _ => Except.ok { StatusCode := 200, BodyRead := Except.ok "" }
        unmarshalOllama := fun _ => Except.ok { Response := "", Error := "" }
        unmarshalHF := fun _ => Except.error "unused"
        unmarshalLocal := fun _ => Except.error "unused"
        unmarshalPlan := fun _ => none }
      = Except.error ("Ollama API error: " ++ "default client without timeout") := rfl

/-- C6 (amended): only the cloud-inference variant performs its request
under the fixed 30-second client timeout; the local-daemon and
generic-HTTP variants use the default client with no timeout.  Each
equation shows the variant is insensitive to arbitrary changes of the
transport away from the timeout configuration it actually uses. -/
theorem C6_timeout_per_variant (fa : FreeAIAgent) (prompt : String) (env : BackendEnv)
    (f : String → Option Int → Except String HttpResp) :
    callHuggingFace fa prompt
        { env with post := fun p t => if t = some 30 then env.post p t else f p t }
      = callHuggingFace fa prompt env
    ∧ callOllama fa prompt
        { env with post := fun p t => if t = none then env.post p t else f p t }
      = callOllama fa prompt env
    ∧ callLocalAPI fa prompt
        { env with post := fun p t => if t = none then env.post p t else f p t }
      = callLocalAPI fa prompt env := by
  refine ⟨?_, ?_, ?_⟩ <;> simp [callHuggingFace, callOllama, callLocalAPI]

/-- C7 counterexample: a non-2xx HTTP status does not make send fail:
with a transport that returns status 500 and a body whose envelope
decodes to a generated text (as the Go unmarshaller does on such a
body), callOllama returns ok, so failure is not equivalent to the four
conditions named by the claim (non-2xx among them). -/
theorem C7_counterexample :
    callOllama (NewOllamaAgent "llama3.2") "p"
      { post := fun _ _ => Except.ok { StatusCode := 500, BodyRead := Except.ok "body500" }
        unmarshalOllama := fun _ => Except.ok { Response := "hello", Error := "" }
        unmarshalHF := fun _ => Except.error "unused"
        unmarshalLocal := fun _ => Except.error "unused"
        unmarshalPlan := fun _ => none }
      = Except.ok (normalizeAIResponse none "hello") := rfl

/-- C7 (amended): for every variant, send fails exactly when the
transport fails, the body cannot be read, the body does not decode as
the provider envelope, the provider reports a nonempty error field, or
the candidate array is empty (cloud variant): the first three conjuncts
are the full biconditionals, one per variant, so none of these
conditions is ever returned as an ok plan and no failure arises outside
them.  The further conjuncts show each cause surfaces with its
human-readable message from the source, and that the HTTP status code
is never consulted (arbitrary rewrites of the status leave every
variant unchanged). -/
theorem C7_failure_surfaced (fa : FreeAIAgent) (prompt : String) (env : BackendEnv) :
    ((∃ e, callOllama fa prompt env = Except.error e) ↔ ollamaFailCondition prompt env)
    ∧ ((∃ e, callHuggingFace fa prompt env = Except.error e) ↔ hfFailCondition prompt env)
    ∧ ((∃ e, callLocalAPI fa prompt env = Except.error e) ↔ localFailCondition prompt env)
    ∧ (∀ e, (∀ p t, env.post p t = Except.error e) →
        callOllama fa prompt env = Except.error ("Ollama API error: " ++ e)
      ∧ callHuggingFace fa prompt env = Except.error ("Hugging Face API error: " ++ e)
      ∧ callLocalAPI fa prompt env = Except.error ("Local API error: " ++ e))
    ∧ (∀ s e, env.post prompt none
          = Except.ok { StatusCode := s, BodyRead := Except.error e } →
        callOllama fa prompt env = Except.error e
        ∧ callLocalAPI fa prompt env = Except.error e)
    ∧ (∀ s e, env.post prompt (some 30)
          = Except.ok { StatusCode := s, BodyRead := Except.error e } →
        callHuggingFace fa prompt env = Except.error e)
    ∧ (∀ s body e, env.post prompt none
          = Except.ok { StatusCode := s, BodyRead := Except.ok body } →
        (env.unmarshalOllama body = Except.error e →
          callOllama fa prompt env = Except.error e)
        ∧ (env.unmarshalLocal body = Except.error e →
          callLocalAPI fa prompt env = Except.error e))
    ∧ (∀ s body e, env.post prompt (some 30)
          = Except.ok { StatusCode := s, BodyRead := Except.ok body } →
        env.unmarshalHF body = Except.error e →
        callHuggingFace fa prompt env = Except.error e)
    ∧ (∀ s body o, env.post prompt none
          = Except.ok { StatusCode := s, BodyRead := Except.ok body } →
        env.unmarshalOllama body = Except.ok o → o.Error ≠ "" →
        callOllama fa prompt env = Except.error ("Ollama error: " ++ o.Error))
    ∧ (∀ s body l, env.post prompt none
          = Except.ok { StatusCode := s, BodyRead := Except.ok body } →
        env.unmarshalLocal body = Except.ok l → l.Error ≠ "" →
        callLocalAPI fa prompt env = Except.error ("Local API error: " ++ l.Error))
    ∧ (∀ s body, env.post prompt (some 30)
          = Except.ok { StatusCode := s, BodyRead := Except.ok body } →
        env.unmarshalHF body = Except.ok [] →
        callHuggingFace fa prompt env = Except.error "no response from Hugging Face")
    ∧ (∀ g : Int → Int,
        callOllama fa prompt (rewriteStatus g env) = callOllama fa prompt env
        ∧ callHuggingFace fa prompt (rewriteStatus g env) = callHuggingFace fa prompt env
        ∧ callLocalAPI fa prompt (rewriteStatus g env) = callLocalAPI fa prompt env) := by
  refine ⟨?_, ?_, ?_, ?_, ?_, ?_, ?_, ?_, ?_, ?_, ?_, ?_⟩
  · unfold callOllama ollamaFailCondition
    cases hp : env.post prompt none with
    | error e => simp
    | ok resp =>
      obtain ⟨s, br⟩ := resp
      cases br with
      | error e => simp
      | ok body =>
        cases hu : env.unmarshalOllama body with
        | error e =>
          simp [hu]
          exact Or.inl ⟨s, body, ⟨rfl, rfl⟩, e, hu⟩
        | ok o =>
          by_cases ho : o.Error = ""
          · simp [hu, ho]
          · simp [hu, ho]
            exact Or.inr ⟨s, body, ⟨rfl, rfl⟩, o, hu, ho⟩
  · unfold callHuggingFace hfFailCondition
    cases hp : env.post prompt (some 30) with
    | error e => simp
    | ok resp =>
      obtain ⟨s, br⟩ := resp
      cases br with
      | error e => simp
      | ok body =>
        cases hu : env.unmarshalHF body with
        | error e =>
          simp [hu]
          exact Or.inl ⟨s, body, ⟨rfl, rfl⟩, e, hu⟩
        | ok items =>
          cases items with
          | nil =>
            simp [hu]
            exact Or.inr ⟨s, body, ⟨rfl, rfl⟩, hu⟩
          | cons first rest => simp [hu]
  · unfold callLocalAPI localFailCondition
    cases hp : env.post prompt none with
    | error e => simp
    | ok resp =>
      obtain ⟨s, br⟩ := resp
      cases br with
      | error e => simp
      | ok body =>
        cases hu : env.unmarshalLocal body with
        | error e =>
          simp [hu]
          exact Or.inl ⟨s, body, ⟨rfl, rfl⟩, e, hu⟩
        | ok l =>
          by_cases hl : l.Error = ""
          · simp [hu, hl]
          · simp [hu, hl]
            exact Or.inr ⟨s, body, ⟨rfl, rfl⟩, l, hu, hl⟩
  · intro e hpost
    refine ⟨?_, ?_, ?_⟩ <;> simp [callOllama, callHuggingFace, callLocalAPI, hpost]
  · intro s e hpost
    constructor <;> simp [callOllama, callLocalAPI, hpost]
  · intro s e hpost
    simp [callHuggingFace, hpost]
  · intro s body e hpost
    constructor
    · intro hu
      simp [callOllama, hpost, hu]
    · intro hu
      simp [callLocalAPI, hpost, hu]
  · intro s body e hpost hu
    simp [callHuggingFace, hpost, hu]
  · intro s body o hpost hu hne
    simp [callOllama, hpost, hu, hne]
  · intro s body l hpost hu hne
    simp [callLocalAPI, hpost, hu, hne]
  · intro s body hpost hu
    simp [callHuggingFace, hpost, hu]
  · intro g
    refine ⟨?_, ?_, ?_⟩
    · cases hp : env.post prompt none <;>
        simp [callOllama, rewriteStatus, hp, Except.map]
    · cases hp : env.post prompt (some 30) <;>
        simp [callHuggingFace, rewriteStatus, hp, Except.map]
    · cases hp : env.post prompt none <;>
        simp [callLocalAPI, rewriteStatus, hp, Except.map]

/-- C7 witness: a refused connection surfaces as the wrapped transport
error on the local-daemon variant. -/
theorem C7_failure_surfaced_witness :
    callOllama (NewOllamaAgent "llama3.2") "p" downBackendEnv
      = Except.error ("Ollama API error: " ++ "connection refused") :=
  ((C7_failure_surfaced (NewOllamaAgent "llama3.2") "p" downBackendEnv).2.2.2.1
    "connection refused" (fun _ _ => rfl)).1
